import Mathlib

/-!
Shallow embedding of the risk classification and ranking pipeline of
`src/traffic_dashboard.py` (functions `load_data`, `categorize_risk`, and the
filter / sort / partition / display steps of `main`).

Modelling conventions:
* A risk score is an `Option ℚ`: `some q` is an ordinary float value and
  `none` is the NaN sentinel produced by `pd.to_numeric(..., errors='coerce')`
  on an unparseable cell.  As with IEEE NaN, every `>=` comparison against
  `none` is false (`optGe`), which is exactly the property the fall-through
  classification relies on.
* A raw CSV cell for `risk_score` is a `CsvValue`: either a numeric value or
  an unparseable string; `toNumeric` is the `errors='coerce'` coercion.
* The Streamlit widgets of `main` are modelled by the `Widget` inductive:
  each of the four views (map, table, chart, tabs) is a pure function from
  the filtered city subset to a `Widget` value recording what the code
  renders (an explicit message, a table of rows, a map of markers, a chart).
-/

namespace TrafficDashboard

/-- Raw cell for the `risk_score` column: a parsed numeric value or an
unparseable string (e.g. `"abc"`). -/
inductive CsvValue where
  | num (q : ℚ)
  | str (s : String)
deriving DecidableEq, Repr

/-- One CSV input row with the five required columns of `roads_data.csv`. -/
structure RawRow where
  city : String
  road_name : String
  risk_score : CsvValue
  latitude : ℚ
  longitude : ℚ
deriving DecidableEq, Repr

/-- Embedding of `pd.to_numeric(df['risk_score'], errors='coerce')`: a numeric
cell keeps its value, an unparseable cell becomes the NaN sentinel `none`. -/
def toNumeric : CsvValue → Option ℚ
  | CsvValue.num q => some q
  | CsvValue.str _ => none

/-- A record of the loaded DataFrame: the CSV columns plus the derived
`risk_category` column appended by `load_data`. -/
structure RoadRecord where
  city : String
  road_name : String
  risk_score : Option ℚ
  latitude : ℚ
  longitude : ℚ
  risk_category : String
deriving DecidableEq, Repr

/-- Embedding of the Python comparison `score >= c` where `score` may be NaN:
NaN fails every comparison, so `none` yields `false`. -/
def optGe (score : Option ℚ) (c : ℚ) : Bool :=
  match score with
  | none => false
  | some x => decide (c ≤ x)

/-- Embedding of `categorize_risk` (src/traffic_dashboard.py lines 65-71):
`if score >= 0.6: 'High' elif score >= 0.3: 'Medium' else: 'Low'`. -/
def categorize_risk (score : Option ℚ) : String :=
  if optGe score 0.6 then "High"
  else if optGe score 0.3 then "Medium"
  else "Low"

/-- One row of `load_data`: coerce the score, then apply `categorize_risk`
unconditionally to the coerced value. -/
def mkRecord (r : RawRow) : RoadRecord :=
  ⟨r.city, r.road_name, toNumeric r.risk_score, r.latitude, r.longitude,
    categorize_risk (toNumeric r.risk_score)⟩

/-- Embedding of `load_data` (src/traffic_dashboard.py lines 47-73): every
input row yields one record, with coerced score and derived category. -/
def load_data (rows : List RawRow) : List RoadRecord :=
  rows.map mkRecord

/-- Embedding of `data[data['city'] == selected_city]` (line 89). -/
def filter_by_city (d : List RoadRecord) (c : String) : List RoadRecord :=
  d.filter (fun r => r.city == c)

/-- Comes-before-or-equal order on scores for the descending sort of line 117:
larger scores first, and NaN (`none`) placed after every numeric value,
matching pandas `ascending=False` with its default `na_position='last'`. -/
def scoreBefore (a b : Option ℚ) : Bool :=
  match a, b with
  | some x, some y => decide (y ≤ x)
  | some _, none => true
  | none, some _ => false
  | none, none => true

/-- Row comparator for the ranking: descending on `risk_score`. -/
def rowLe (a b : RoadRecord) : Bool :=
  scoreBefore a.risk_score b.risk_score

/-- Modelled from the spec: the tie order of
`city_data.sort_values('risk_score', ascending=False)` (line 117) is decided
inside pandas/numpy, library code not present in src/; §4 of the spec fixes a
stable descending comparator ("stable sort: ties keep original relative
order"), so the sort is embedded as a stable merge sort with `rowLe`. -/
def sort_values (d : List RoadRecord) : List RoadRecord :=
  d.mergeSort rowLe

/-- Embedding of `.head(10)` after the descending sort (line 117). -/
def top_n (d : List RoadRecord) : List RoadRecord :=
  (sort_values d).take 10

/-- Round a rational to the nearest integer, ties to even: the rounding used
when a float is formatted with a fixed number of decimals, and by Python's
built-in `round`. -/
def roundHalfEven (q : ℚ) : ℤ :=
  let fl := ⌊q⌋
  let fr := q - fl
  if fr < 1/2 then fl
  else if 1/2 < fr then fl + 1
  else if fl % 2 = 0 then fl else fl + 1

/-- Decimal digits of `m`, left-padded with zeros to `k` digits. -/
def natFixedDigits (k : ℕ) (m : ℕ) : String :=
  let s := toString m
  String.mk (List.replicate (k - s.length) '0') ++ s

/-- Fixed-point rendering of a nonnegative numerator `m` (already scaled by
`10^k`) with `k` digits after the decimal point. -/
def fmtFixedNat (k : ℕ) (m : ℕ) : String :=
  if k = 0 then toString m
  else toString (m / 10 ^ k) ++ "." ++ natFixedDigits k (m % 10 ^ k)

/-- Embedding of Python's fixed-point format `f"{q:.kf}"` on an exact rational
value: scale by `10^k`, round half-to-even, print with `k` decimals. -/
def fmtFixed (k : ℕ) (q : ℚ) : String :=
  let n := roundHalfEven (q * 10 ^ k)
  if n < 0 then "-" ++ fmtFixedNat k n.natAbs else fmtFixedNat k n.natAbs

/-- Rendering of the display percentage column (lines 119 and 123):
`risk_percentage = risk_score * 100`, formatted as `f"{x:.1f}%"`.  A NaN score
formats as `"nan"` in Python. -/
def pctString (score : Option ℚ) : String :=
  match score with
  | none => "nan%"
  | some q => fmtFixed 1 (q * 100) ++ "%"

/-- One row of the displayed top-10 table (lines 120-123), after the column
relabelling {road_name → Road, risk_percentage → Risk (%), risk_category →
Category}. -/
structure DisplayRow where
  road : String
  riskPct : String
  category : String
deriving DecidableEq, Repr

/-- Build the display row for one record; the percentage is derived for
display only, `RoadRecord` has no percentage field. -/
def mkDisplayRow (r : RoadRecord) : DisplayRow :=
  ⟨r.road_name, pctString r.risk_score, r.risk_category⟩

/-- The rendered top-10 table contents (lines 117-123). -/
def top_display (d : List RoadRecord) : List DisplayRow :=
  (top_n d).map mkDisplayRow

/-- Embedding of `colour_map.get(cat, 'blue')` with
`colour_map = {'High': 'red', 'Medium': 'orange', 'Low': 'green'}`
(lines 98, 105, 107). -/
def colourMapGet (cat : String) : String :=
  if cat = "High" then "red"
  else if cat = "Medium" then "orange"
  else if cat = "Low" then "green"
  else "blue"

/-- Rendering of `f"{score:.2f}"` in the marker popup; NaN prints as "nan". -/
def scoreStr2 (score : Option ℚ) : String :=
  match score with
  | none => "nan"
  | some q => fmtFixed 2 q

/-- One `folium.CircleMarker` of the map view (lines 100-109). -/
structure Marker where
  lat : ℚ
  lon : ℚ
  popup : String
  color : String
deriving DecidableEq, Repr

/-- Build the circle marker for one record (lines 101-109). -/
def mkMarker (r : RoadRecord) : Marker :=
  ⟨r.latitude, r.longitude,
    r.road_name ++ " – Risk Score: " ++ scoreStr2 r.risk_score,
    colourMapGet r.risk_category⟩

/-- One row of a category tab table (lines 151-163), after the relabelling
{road_name → Road, risk_score → Score}. -/
structure ScoreRow where
  road : String
  score : Option ℚ
deriving DecidableEq, Repr

/-- Column projection used by the three tab tables. -/
def toScoreRows (d : List RoadRecord) : List ScoreRow :=
  d.map (fun r => ⟨r.road_name, r.risk_score⟩)

/-- What one Streamlit view of `main` renders: an explicit text message
(`st.info` / `st.write`), a map, the top-10 table, the trend chart, or a tab
table. -/
inductive Widget where
  | message (text : String)
  | mapW (centerLat centerLon : ℚ) (markers : List Marker)
  | dispTable (rows : List DisplayRow)
  | chart (base : Option ℤ)
  | scoreTable (rows : List ScoreRow)
deriving DecidableEq, Repr

/-- A view is an explicit "no data" indication exactly when it is a rendered
text message rather than a data widget. -/
def isNoDataMessage : Widget → Bool
  | Widget.message _ => true
  | _ => false

/-- Mean of the latitude column, for the map centre (line 94). -/
def meanLat (d : List RoadRecord) : ℚ :=
  (d.map RoadRecord.latitude).sum / d.length

/-- Mean of the longitude column, for the map centre (line 95). -/
def meanLon (d : List RoadRecord) : ℚ :=
  (d.map RoadRecord.longitude).sum / d.length

/-- Embedding of the map view (lines 92-113): a map with one marker per row
when the city subset is nonempty, else `st.info("No data available for this
city.")`. -/
def mapWidget (subset : List RoadRecord) : Widget :=
  if subset.isEmpty then Widget.message "No data available for this city."
  else Widget.mapW (meanLat subset) (meanLon subset) (subset.map mkMarker)

/-- Embedding of the top-10 table view (lines 116-124): `st.table` is called
unconditionally on the (possibly empty) display rows, with no empty-state
branch. -/
def tableWidget (subset : List RoadRecord) : Widget :=
  Widget.dispTable (top_display subset)

/-- The Poisson base of the dummy trend chart (line 130):
`max(int(round(mean(risk_score) * 10)), 1)`, where the pandas mean skips NaN;
`none` when every score is NaN (the mean itself is then NaN). -/
def chartBase (subset : List RoadRecord) : Option ℤ :=
  let numeric := subset.filterMap RoadRecord.risk_score
  if numeric.isEmpty then none
  else some (max (roundHalfEven (numeric.sum / numeric.length * 10)) 1)

/-- Embedding of the trend-chart view (lines 127-144): a chart when the city
subset is nonempty, else `st.write("Insufficient data to display risk
trend.")`. -/
def chartWidget (subset : List RoadRecord) : Widget :=
  if subset.isEmpty then Widget.message "Insufficient data to display risk trend."
  else Widget.chart (chartBase subset)

/-- Embedding of `city_data[city_data['risk_category'] == 'High']` (line 151). -/
def highBucket (d : List RoadRecord) : List RoadRecord :=
  d.filter (fun r => r.risk_category == "High")

/-- Embedding of `city_data[city_data['risk_category'] == 'Medium']` (line 156). -/
def medBucket (d : List RoadRecord) : List RoadRecord :=
  d.filter (fun r => r.risk_category == "Medium")

/-- Embedding of `city_data[city_data['risk_category'] == 'Low']` (line 161). -/
def lowBucket (d : List RoadRecord) : List RoadRecord :=
  d.filter (fun r => r.risk_category == "Low")

/-- Embedding of the three category tabs (lines 148-163): each tab calls
`st.table` unconditionally on its (possibly empty) filtered rows. -/
def tabsWidget (subset : List RoadRecord) : Widget × Widget × Widget :=
  (Widget.scoreTable (toScoreRows (highBucket subset)),
   Widget.scoreTable (toScoreRows (medBucket subset)),
   Widget.scoreTable (toScoreRows (lowBucket subset)))

/-- A one-row concrete dataset (Scenario A of the spec), used as concrete
input for witnesses and counterexamples. -/
def exData : List RawRow :=
  [⟨"Lahore", "Mall Road", CsvValue.num 0.75, 31.56, 74.35⟩]

/-- C1: for every numeric (non-NaN) risk score `s`, `categorize_risk` returns
"High" iff `s ≥ 0.6`, "Medium" iff `0.3 ≤ s < 0.6`, and "Low" iff `s < 0.3`. -/
theorem C1_categorize_thresholds (s : ℚ) :
    (categorize_risk (some s) = "High" ↔ 0.6 ≤ s)
      ∧ (categorize_risk (some s) = "Medium" ↔ 0.3 ≤ s ∧ s < 0.6)
      ∧ (categorize_risk (some s) = "Low" ↔ s < 0.3) := by
  rcases le_or_lt 0.6 s with h1 | h1
  · have h2 : (0.3 : ℚ) ≤ s := le_trans (by norm_num) h1
    simp [categorize_risk, optGe, h1, h2, not_lt.mpr h1, not_lt.mpr h2]
  · rcases le_or_lt 0.3 s with h2 | h2
    · simp [categorize_risk, optGe, not_le.mpr h1, h2, h1, not_lt.mpr h2]
    · have h1' : ¬ (0.6 : ℚ) ≤ s := not_le.mpr (lt_trans h2 (by norm_num))
      simp [categorize_risk, optGe, h1', not_le.mpr h2, h2]

/-- A one-row dataset whose only score is unparseable (Scenario B). -/
def badRows : List RawRow :=
  [⟨"Lahore", "Canal Road", CsvValue.str "abc", 31.5, 74.3⟩]

/-- The record loaded from the single row of `exData`. -/
def exRec : RoadRecord :=
  mkRecord ⟨"Lahore", "Mall Road", CsvValue.num 0.75, 31.56, 74.35⟩

/-- A record with the Scenario-A-style score 0.734 of the round-trip check. -/
def rec734 : RoadRecord :=
  mkRecord ⟨"Lahore", "Jail Road", CsvValue.num 0.734, 31.55, 74.33⟩

theorem categorize_mem3 (s : Option ℚ) :
    categorize_risk s = "High" ∨ categorize_risk s = "Medium"
      ∨ categorize_risk s = "Low" := by
  unfold categorize_risk
  split
  · exact Or.inl rfl
  split
  · exact Or.inr (Or.inl rfl)
  · exact Or.inr (Or.inr rfl)

theorem mem_load_category (rows : List RawRow) (r : RoadRecord)
    (h : r ∈ load_data rows) : r.risk_category = categorize_risk r.risk_score := by
  simp only [load_data, List.mem_map] at h
  obtain ⟨raw, _, rfl⟩ := h
  rfl

theorem scoreBefore_refl (x : Option ℚ) : scoreBefore x x = true := by
  cases x <;> simp [scoreBefore]

theorem scoreBefore_trans (x y z : Option ℚ) (h1 : scoreBefore x y = true)
    (h2 : scoreBefore y z = true) : scoreBefore x z = true := by
  cases x <;> cases y <;> cases z <;> simp_all [scoreBefore]
  exact le_trans h2 h1

theorem scoreBefore_total (x y : Option ℚ) :
    (scoreBefore x y || scoreBefore y x) = true := by
  cases x <;> cases y <;> simp [scoreBefore]
  exact le_total _ _

theorem rowLe_trans (a b c : RoadRecord) (h1 : rowLe a b) (h2 : rowLe b c) :
    rowLe a c :=
  scoreBefore_trans _ _ _ h1 h2

theorem rowLe_total (a b : RoadRecord) : rowLe a b || rowLe b a :=
  scoreBefore_total _ _

theorem roundHalfEven_intCast (n : ℤ) : roundHalfEven ((n : ℚ)) = n := by
  simp only [roundHalfEven, Int.floor_intCast, sub_self]
  norm_num

/-- C2: a row whose `risk_score` cell cannot be parsed is coerced to the NaN
sentinel by `load_data` rather than raising, the row is kept (the Dataset has
one record per input row, at the same index), and the unconditional
classification of the sentinel yields "Low" via the fall-through branch. -/
theorem C2_unparseable_kept_low (rows : List RawRow) (i : ℕ) (hi : i < rows.length)
    (hbad : toNumeric (rows.get ⟨i, hi⟩).risk_score = none) :
    (load_data rows).length = rows.length
      ∧ ∀ (hj : i < (load_data rows).length),
          ((load_data rows).get ⟨i, hj⟩).risk_score = none
            ∧ ((load_data rows).get ⟨i, hj⟩).risk_category = "Low" := by
  refine ⟨by simp [load_data], fun hj => ?_⟩
  have hg : (load_data rows).get ⟨i, hj⟩ = mkRecord (rows.get ⟨i, hi⟩) := by
    simp [load_data, List.get_eq_getElem, List.getElem_map]
  have hbad' : toNumeric rows[i].risk_score = none := by
    simpa [List.get_eq_getElem] using hbad
  rw [hg]
  constructor <;> simp [mkRecord, List.get_eq_getElem, hbad', categorize_risk, optGe]

/-- Witness for C2 at the concrete unparseable row of `badRows`. -/
theorem C2_witness :
    ((load_data badRows).get ⟨0, by decide⟩).risk_score = none
      ∧ ((load_data badRows).get ⟨0, by decide⟩).risk_category = "Low" :=
  (C2_unparseable_kept_low badRows 0 (by decide) rfl).2 (by decide)

/-- C3 counterexample: for the concrete dataset `exData` and the zero-row city
"Quetta", the top-10 table view and the High tab render plain (empty) table
widgets, not an explicit "no data" message — so not all four views produce an
explicit no-data indication. -/
theorem C3_counterexample :
    filter_by_city (load_data exData) "Quetta" = []
      ∧ isNoDataMessage (tableWidget (filter_by_city (load_data exData) "Quetta")) = false
      ∧ tableWidget (filter_by_city (load_data exData) "Quetta") = Widget.dispTable []
      ∧ isNoDataMessage (tabsWidget (filter_by_city (load_data exData) "Quetta")).1 = false := by
  have h : filter_by_city (load_data exData) "Quetta" = [] := by decide
  refine ⟨h, ?_, ?_, ?_⟩ <;>
    simp [h, tableWidget, top_display, top_n, sort_values, isNoDataMessage,
      tabsWidget, highBucket, toScoreRows]

/-- C3 amended: for a city with zero matching rows, the map and chart views
render explicit "no data" messages, while the table and the three tabs render
empty table widgets (no explicit indication); no view raises. -/
theorem C3_empty_city_views (d : List RoadRecord) (c : String)
    (h : filter_by_city d c = []) :
    mapWidget (filter_by_city d c) = Widget.message "No data available for this city."
      ∧ chartWidget (filter_by_city d c)
          = Widget.message "Insufficient data to display risk trend."
      ∧ tableWidget (filter_by_city d c) = Widget.dispTable []
      ∧ tabsWidget (filter_by_city d c)
          = (Widget.scoreTable [], Widget.scoreTable [], Widget.scoreTable []) := by
  rw [h]
  refine ⟨rfl, rfl, ?_, rfl⟩
  simp [tableWidget, top_display, top_n, sort_values]

/-- Witness for the amended C3 at the concrete zero-row city. -/
theorem C3_empty_city_views_witness :
    mapWidget (filter_by_city (load_data exData) "Quetta")
        = Widget.message "No data available for this city."
      ∧ chartWidget (filter_by_city (load_data exData) "Quetta")
          = Widget.message "Insufficient data to display risk trend."
      ∧ tableWidget (filter_by_city (load_data exData) "Quetta") = Widget.dispTable []
      ∧ tabsWidget (filter_by_city (load_data exData) "Quetta")
          = (Widget.scoreTable [], Widget.scoreTable [], Widget.scoreTable []) :=
  C3_empty_city_views (load_data exData) "Quetta" (by decide)

/-- C4: the ranking sort is stable — two records with equal `risk_score`
appear in the sorted output in their original relative order, and likewise in
the truncated top-10 when the subset fits in it. -/
theorem C4_stable_ties (l1 l2 l3 : List RoadRecord) (a b : RoadRecord)
    (hab : a.risk_score = b.risk_score) :
    [a, b].Sublist (sort_values (l1 ++ (a :: (l2 ++ (b :: l3)))))
      ∧ ((l1 ++ (a :: (l2 ++ (b :: l3)))).length ≤ 10 →
          [a, b].Sublist (top_n (l1 ++ (a :: (l2 ++ (b :: l3)))))) := by
  have hle : rowLe a b = true := by
    simp only [rowLe, hab]
    exact scoreBefore_refl _
  have hb1 : [b].Sublist (b :: l3) := List.Sublist.cons₂ b (List.nil_sublist l3)
  have hb2 : [b].Sublist (l2 ++ b :: l3) :=
    hb1.trans (List.sublist_append_right l2 (b :: l3))
  have hb3 : [a, b].Sublist (a :: (l2 ++ b :: l3)) := List.Sublist.cons₂ a hb2
  have hsub : [a, b].Sublist (l1 ++ (a :: (l2 ++ (b :: l3)))) :=
    hb3.trans (List.sublist_append_right l1 (a :: (l2 ++ b :: l3)))
  have h1 : [a, b].Sublist (sort_values (l1 ++ (a :: (l2 ++ (b :: l3))))) :=
    List.pair_sublist_mergeSort rowLe_trans rowLe_total hle hsub
  refine ⟨h1, fun hlen => ?_⟩
  have ht : top_n (l1 ++ (a :: (l2 ++ (b :: l3)))) = sort_values (l1 ++ (a :: (l2 ++ (b :: l3)))) := by
    unfold top_n
    apply List.take_of_length_le
    rw [sort_values, List.length_mergeSort]
    exact hlen
  rw [ht]
  exact h1

/-- Witness for C4: two Medium records with equal score 0.5 keep their order. -/
theorem C4_witness :
    [mkRecord ⟨"Lahore", "A Road", CsvValue.num 0.5, 1, 2⟩,
        mkRecord ⟨"Lahore", "B Road", CsvValue.num 0.5, 3, 4⟩].Sublist
      (top_n ([] ++ mkRecord ⟨"Lahore", "A Road", CsvValue.num 0.5, 1, 2⟩
        :: [] ++ mkRecord ⟨"Lahore", "B Road", CsvValue.num 0.5, 3, 4⟩ :: [])) :=
  (C4_stable_ties [] [] []
    (mkRecord ⟨"Lahore", "A Road", CsvValue.num 0.5, 1, 2⟩)
    (mkRecord ⟨"Lahore", "B Road", CsvValue.num 0.5, 3, 4⟩) rfl).2 (by decide)

/-- C5: `top_n` returns at most 10 records, its output is sorted descending by
`risk_score` (NaN last, matching the pandas sort options), and a subset of
size m < 10 yields exactly m records. -/
theorem C5_topn_bounds (subset : List RoadRecord) :
    (top_n subset).length ≤ 10
      ∧ List.Pairwise (fun a b => rowLe a b = true) (top_n subset)
      ∧ (subset.length < 10 → (top_n subset).length = subset.length) := by
  refine ⟨?_, ?_, fun h => ?_⟩
  · simp only [top_n, sort_values, List.length_take, List.length_mergeSort]
    omega
  · exact List.Pairwise.sublist (List.take_sublist 10 _)
      (List.sorted_mergeSort rowLe_trans rowLe_total subset)
  · simp only [top_n, sort_values, List.length_take, List.length_mergeSort]
    omega

/-- Witness for C5: the one-row subset yields exactly one record. -/
theorem C5_witness :
    (top_n (load_data exData)).length = (load_data exData).length :=
  (C5_topn_bounds (load_data exData)).2.2 (by decide)

/-- C6: the three category buckets preserve the original relative order (each
is a sublist of the city subset), are pairwise disjoint, and their union as a
set is the whole subset. -/
theorem C6_partition_buckets (rows : List RawRow) (c : String) (d : List RoadRecord)
    (hd : d = filter_by_city (load_data rows) c) :
    (highBucket d).Sublist d ∧ (medBucket d).Sublist d ∧ (lowBucket d).Sublist d
      ∧ (∀ r, r ∈ d ↔ r ∈ highBucket d ∨ r ∈ medBucket d ∨ r ∈ lowBucket d)
      ∧ (∀ r, ¬(r ∈ highBucket d ∧ r ∈ medBucket d))
      ∧ (∀ r, ¬(r ∈ highBucket d ∧ r ∈ lowBucket d))
      ∧ (∀ r, ¬(r ∈ medBucket d ∧ r ∈ lowBucket d)) := by
  refine ⟨List.filter_sublist _, List.filter_sublist _, List.filter_sublist _,
    fun r => ⟨fun hr => ?_, fun hr => ?_⟩, fun r hr => ?_, fun r hr => ?_, fun r hr => ?_⟩
  · have hmem : r ∈ load_data rows := by
      have := hd ▸ hr
      exact List.mem_of_mem_filter this
    have hcat := mem_load_category rows r hmem
    rcases categorize_mem3 r.risk_score with h | h | h
    · exact Or.inl (List.mem_filter.mpr ⟨hr, by simp [hcat, h]⟩)
    · exact Or.inr (Or.inl (List.mem_filter.mpr ⟨hr, by simp [hcat, h]⟩))
    · exact Or.inr (Or.inr (List.mem_filter.mpr ⟨hr, by simp [hcat, h]⟩))
  · rcases hr with h | h | h <;> exact List.mem_of_mem_filter h
  · obtain ⟨h1, h2⟩ := hr
    have e1 := (List.mem_filter.mp h1).2
    have e2 := (List.mem_filter.mp h2).2
    simp only [beq_iff_eq] at e1 e2
    rw [e1] at e2
    exact absurd e2 (by decide)
  · obtain ⟨h1, h2⟩ := hr
    have e1 := (List.mem_filter.mp h1).2
    have e2 := (List.mem_filter.mp h2).2
    simp only [beq_iff_eq] at e1 e2
    rw [e1] at e2
    exact absurd e2 (by decide)
  · obtain ⟨h1, h2⟩ := hr
    have e1 := (List.mem_filter.mp h1).2
    have e2 := (List.mem_filter.mp h2).2
    simp only [beq_iff_eq] at e1 e2
    rw [e1] at e2
    exact absurd e2 (by decide)

/-- Witness for C6 at the concrete one-city dataset. -/
theorem C6_witness :
    (highBucket (filter_by_city (load_data exData) "Lahore")).Sublist
      (filter_by_city (load_data exData) "Lahore") :=
  (C6_partition_buckets exData "Lahore"
    (filter_by_city (load_data exData) "Lahore") rfl).1

/-- C7: `filter_by_city` is idempotent, and a city with no matching rows
yields the empty subset rather than an error. -/
theorem C7_filter_idempotent (d : List RoadRecord) (c : String) :
    filter_by_city (filter_by_city d c) c = filter_by_city d c
      ∧ ((∀ r ∈ d, r.city ≠ c) → filter_by_city d c = []) := by
  constructor
  · rw [filter_by_city, filter_by_city, List.filter_filter]
    simp
  · intro h
    rw [filter_by_city, List.filter_eq_nil_iff]
    intro r hr
    simp [h r hr]

/-- Witness for C7: the no-match case at the concrete dataset. -/
theorem C7_witness : filter_by_city (load_data exData) "Quetta" = [] :=
  (C7_filter_idempotent (load_data exData) "Quetta").2 (by decide)

/-- C8: classification is total over the loaded Dataset — every loaded record
carries `categorize_risk` of its (possibly NaN) score, which is always one of
the three category strings, never null. -/
theorem C8_category_total (rows : List RawRow) :
    ∀ r ∈ load_data rows,
      r.risk_category = categorize_risk r.risk_score
        ∧ (r.risk_category = "High" ∨ r.risk_category = "Medium"
            ∨ r.risk_category = "Low") := by
  intro r hr
  have h := mem_load_category rows r hr
  exact ⟨h, h ▸ categorize_mem3 r.risk_score⟩

/-- Witness for C8 at the concrete loaded record. -/
theorem C8_witness :
    exRec.risk_category = "High" ∨ exRec.risk_category = "Medium"
      ∨ exRec.risk_category = "Low" :=
  (C8_category_total exData exRec (by simp [load_data, exData, exRec])).2

/-- C9: a record with risk score 0.734 renders its display percentage as
exactly "73.4%", and the display row is derived (road name and category taken
from the record, the percentage computed on the fly — `RoadRecord` itself has
no percentage field to store it in). -/
theorem C9_percentage_display (r : RoadRecord) (h : r.risk_score = some 0.734) :
    (mkDisplayRow r).riskPct = "73.4%"
      ∧ (mkDisplayRow r).road = r.road_name
      ∧ (mkDisplayRow r).category = r.risk_category := by
  refine ⟨?_, rfl, rfl⟩
  simp only [mkDisplayRow, pctString, h]
  have h1 : (0.734 : ℚ) * 100 * 10 ^ 1 = ((734 : ℤ) : ℚ) := by norm_num
  rw [fmtFixed]
  rw [h1, roundHalfEven_intCast]
  norm_num [fmtFixedNat, natFixedDigits]
  rfl

/-- Witness for C9 at the concrete record with score 0.734. -/
theorem C9_witness : (mkDisplayRow rec734).riskPct = "73.4%" :=
  (C9_percentage_display rec734 rfl).1

/-- C10: every loaded record's category is one of the three known strings, so
the `colour_map.get(..., 'blue')` fallback is unreachable for pipeline
records: every map marker is red, orange or green, never blue. -/
theorem C10_marker_colors (rows : List RawRow) (c : String) :
    (∀ r ∈ load_data rows,
        r.risk_category = "High" ∨ r.risk_category = "Medium"
          ∨ r.risk_category = "Low")
      ∧ ∀ m ∈ (filter_by_city (load_data rows) c).map mkMarker,
          (m.color = "red" ∨ m.color = "orange" ∨ m.color = "green")
            ∧ m.color ≠ "blue" := by
  constructor
  · intro r hr
    have h := mem_load_category rows r hr
    exact h ▸ categorize_mem3 r.risk_score
  · intro m hm
    obtain ⟨r, hr, rfl⟩ := List.mem_map.mp hm
    have hmem : r ∈ load_data rows := List.mem_of_mem_filter hr
    have hcat := mem_load_category rows r hmem
    rcases categorize_mem3 r.risk_score with h | h | h <;>
      simp [mkMarker, colourMapGet, hcat, h]

/-- Witness for C10: the concrete Lahore marker is red, not blue. -/
theorem C10_witness :
    ((mkMarker exRec).color = "red" ∨ (mkMarker exRec).color = "orange"
        ∨ (mkMarker exRec).color = "green")
      ∧ (mkMarker exRec).color ≠ "blue" :=
  (C10_marker_colors exData "Lahore").2 (mkMarker exRec)
    (by
      simp only [filter_by_city, load_data, exData, exRec, List.map_cons, List.map_nil,
        List.mem_map, List.mem_filter, List.mem_singleton]
      exact ⟨_, ⟨rfl, by decide⟩, rfl⟩)

end TrafficDashboard
